import Mathlib

/-!
Shallow embedding of the video-generation workflow of `src/App.tsx`
(Janan-Video.AI): the `generateVideoFromText` request/poll/fetch/decode
pipeline, the `parseErrorMessage` error classifier, and the two UI callers
`handleSaveEdit` and `handleGenerateNewVideo`.

External, stateful collaborators (the `@google/genai` client, `fetch`,
`FileReader`, JS builtins) are modelled as an explicit environment record
plus a trace of successive poll results, so every definition is executable.
-/

namespace JananVideo

/-- Substring occurrence on character lists: `hasPrefixL p t` holds when
`p` is a prefix of `t` (models position-wise comparison of JS strings,
which for the ASCII patterns used here agrees with code-unit comparison). -/
def hasPrefixL : List Char → List Char → Bool
  | [], _ => true
  | _ :: _, [] => false
  | p :: ps, c :: cs => p == c && hasPrefixL ps cs

/-- `containsL pat text` holds when `pat` occurs contiguously in `text`. -/
def containsL (pat : List Char) : List Char → Bool
  | [] => hasPrefixL pat []
  | c :: cs => hasPrefixL pat (c :: cs) || containsL pat cs

/-- Model of JS `String.prototype.includes`: `strIncludes s pat` is
`s.includes(pat)`. -/
def strIncludes (s pat : String) : Bool :=
  containsL pat.data s.data

/-- Model of a JS value passed to the catch handler: either an `Error`
instance carrying its `message` string, or any non-`Error` value
(whose shape, tagged here for the sake of quantification, is irrelevant). -/
inductive JSValue where
  | error (message : String)
  | nonError (tag : String)
deriving DecidableEq, Repr

/-- Embedding of `parseErrorMessage` (src/App.tsx lines 83-119): pattern
table matched by `String.includes` in source order, then the generic
message fallback, then the unknown-shape fallback. -/
def parseErrorMessage : JSValue → List String
  | .error message =>
    if strIncludes message "API key not valid" then
      ["Your API key is not valid.",
       "Please check your API key and try again."]
    else if strIncludes message "permission denied" then
      ["Permission Denied.",
       "This model may require a specific tier or project configuration. Please check your project settings."]
    else if strIncludes message "User location is not supported" then
      ["Location Not Supported.",
       "The model is not available in your current location."]
    else if strIncludes message "Billing account not found" then
      ["Billing Issue.",
       "A valid billing account is required. Please select a Cloud Project with billing enabled."]
    else
      ["Video generation failed:", message]
  | .nonError _ =>
    ["An unexpected error occurred.",
     "Please check the console for more details."]

/-- The `video` field of a generated-video entry: a remote URI. -/
structure VideoFile where
  uri : String
deriving DecidableEq, Repr

/-- One generated-media entry of the backend response (`GeneratedVideo`). -/
structure GeneratedVideo where
  video : VideoFile
deriving DecidableEq, Repr

/-- The response payload of a completed operation; `generatedVideos` may be
absent (JS `undefined`). -/
structure OperationResponse where
  generatedVideos : Option (List GeneratedVideo)
deriving DecidableEq, Repr

/-- An in-flight generation job as observed by the client: the `done` flag
and the response payload (absent until done, and possibly absent even
then). -/
structure Operation where
  done : Bool
  response : Option OperationResponse
deriving DecidableEq, Repr

/-- A binary payload; its bytes are opaque to the workflow, so a string
stands in for them. -/
abbrev Blob := String

/-- Result of one HTTP fetch: `ok` flag, numeric status, status text and
body. -/
structure FetchResponse where
  ok : Bool
  status : Nat
  statusText : String
  blob : Blob
deriving DecidableEq, Repr

/-- The external collaborators of the workflow: job submission
(`ai.models.generateVideos`), HTTP `fetch`, the `FileReader` data-URL
encoding, the `decodeURIComponent` builtin, and the process-wide API key.
Successive results of `ai.operations.getVideosOperation` are supplied
separately as a trace, since that call is stateful. -/
structure Env where
  generateVideos : String → Nat → Operation
  fetch : String → FetchResponse
  readAsDataURL : Blob → String
  decodeURIComponent : String → String
  apiKey : String

/-- Model of JS `String.prototype.split` with a one-character separator:
split the character list at every occurrence of `c`. -/
def splitChar (c : Char) : List Char → List (List Char)
  | [] => [[]]
  | x :: xs =>
      let r := splitChar c xs
      if x == c then [] :: r
      else
        match r with
        | [] => [[x]]
        | h :: t => (x :: h) :: t

/-- Embedding of `bloblToBase64` (src/App.tsx lines 26-35): read the blob
as a data URL and keep what follows the first comma (JS
`url.split(',')[1]`; a missing second part, `undefined` in JS, is
modelled as the empty string). -/
def bloblToBase64 (env : Env) (blob : Blob) : String :=
  String.mk ((splitChar ',' (env.readAsDataURL blob).data).getD 1 [])

/-- Errors thrown by `generateVideoFromText` itself. -/
inductive GenError where
  | noVideos
  | fetchFailed (status : Nat) (statusText : String)
deriving DecidableEq, Repr

/-- The `message` of the `Error` the workflow throws. -/
def errMessage : GenError → String
  | .noVideos => "No videos generated"
  | .fetchFailed status statusText =>
      "Failed to fetch video: " ++ toString status ++ " " ++ statusText

/-- Embedding of the polling loop (src/App.tsx lines 53-57): while the
operation is not done, take the next result of `getVideosOperation` from
the trace. Returns the final operation together with the number of
`getVideosOperation` calls made; `none` means the trace is exhausted
before completion (the source loop would still be polling). -/
def pollLoop : Operation → List Operation → Option (Operation × Nat)
  | op, [] => if op.done then some (op, 0) else none
  | op, next :: rest =>
      if op.done then some (op, 0)
      else
        match pollLoop next rest with
        | none => none
        | some (opF, n) => some (opF, n + 1)

/-- The URL string fetched for one generated-media entry
(src/App.tsx lines 67-68). -/
def requestUrl (env : Env) (gv : GeneratedVideo) : String :=
  env.decodeURIComponent gv.video.uri ++ "&key=" ++ env.apiKey

/-- Embedding of the per-video fetch/decode closure
(src/App.tsx lines 66-75). -/
def fetchOne (env : Env) (gv : GeneratedVideo) : Except GenError String :=
  let res := env.fetch (requestUrl env gv)
  if res.ok then .ok (bloblToBase64 env res.blob)
  else .error (.fetchFailed res.status res.statusText)

/-- Embedding of `Promise.all(videos.map(...))` (src/App.tsx lines 65-77):
all-or-nothing join preserving the order of the references; any failing
fetch fails the whole list. -/
def fetchAll (env : Env) : List GeneratedVideo → Except GenError (List String)
  | [] => .ok []
  | gv :: rest =>
      match fetchOne env gv with
      | .error e => .error e
      | .ok s =>
          match fetchAll env rest with
          | .error e => .error e
          | .ok ss => .ok (s :: ss)

/-- Embedding of the post-loop response inspection
(src/App.tsx lines 59-80): absent response, absent list or empty list
throw `No videos generated`; otherwise fetch and encode every entry. -/
def processResponse (env : Env) (op : Operation) : Except GenError (List String) :=
  match op.response with
  | none => .error .noVideos
  | some resp =>
      match resp.generatedVideos with
      | none => .error .noVideos
      | some [] => .error .noVideos
      | some vids => fetchAll env vids

/-- Embedding of `generateVideoFromText` (src/App.tsx lines 39-81).
`trace` supplies the successive results of `getVideosOperation`; `none`
models the unbounded loop still running, `some (.error e)` a thrown
`Error` with message `errMessage e`, `some (.ok xs)` the returned list. -/
def generateVideoFromText (env : Env) (prompt : String) (trace : List Operation)
    (numberOfVideos : Nat) : Option (Except GenError (List String)) :=
  match pollLoop (env.generateVideos prompt numberOfVideos) trace with
  | none => none
  | some (opF, _) => some (processResponse env opF)

/-- A call of `generateVideoFromText` without a count argument: the source
default for `numberOfVideos` is `1` (src/App.tsx line 41). -/
def generateVideoFromTextDefault (env : Env) (prompt : String)
    (trace : List Operation) : Option (Except GenError (List String)) :=
  generateVideoFromText env prompt trace 1

/-- The `Video` record built by the UI callers (src/types). -/
structure Video where
  id : String
  title : String
  description : String
  videoUrl : String
deriving DecidableEq, Repr

/-- Observable outcome of one run of a UI handler: no action taken (empty
prompt guard), still polling (trace exhausted), a classified error stored
in `generationError`, or a new `Video` prepended to the grid. -/
inductive HandlerOutcome where
  | noAction
  | stillPolling
  | failed (message : List String)
  | created (v : Video)
deriving DecidableEq, Repr

/-- Model of JS `String.prototype.trim`: strip whitespace from both ends. -/
def jsTrim (s : String) : String :=
  String.mk (((s.data.dropWhile Char.isWhitespace).reverse.dropWhile
    Char.isWhitespace).reverse)

/-- Model of JS `String.prototype.substring(0, 30)` on the prompt. -/
def jsTake (s : String) (n : Nat) : String :=
  String.mk (s.data.take n)

/-- Embedding of `handleSaveEdit` (src/App.tsx lines 203-239): generate
from the original video's description with the default count, fail on an
empty result, otherwise build a remix `Video` from the first element of
the returned list. The `id` comes from `self.crypto.randomUUID()`,
supplied here as `uuid`; thrown errors are caught and classified. -/
def handleSaveEdit (env : Env) (uuid : String) (originalVideo : Video)
    (trace : List Operation) : HandlerOutcome :=
  match generateVideoFromTextDefault env originalVideo.description trace with
  | none => .stillPolling
  | some (.error e) => .failed (parseErrorMessage (.error (errMessage e)))
  | some (.ok []) =>
      .failed (parseErrorMessage (.error "Video generation returned no data."))
  | some (.ok (v0 :: _)) =>
      .created ⟨uuid,
        "Remix of \"" ++ originalVideo.title ++ "\"",
        originalVideo.description,
        "data:video/mp4;base64," ++ v0⟩

/-- Embedding of `handleGenerateNewVideo` (src/App.tsx lines 241-282):
return early when the trimmed prompt is empty, generate from the raw
prompt with the default count, fail on an empty result, otherwise build a
`Video` titled with the first 30 characters of the prompt from the first
element of the returned list. -/
def handleGenerateNewVideo (env : Env) (uuid : String) (promptInput : String)
    (trace : List Operation) : HandlerOutcome :=
  if jsTrim promptInput = "" then .noAction
  else
    match generateVideoFromTextDefault env promptInput trace with
    | none => .stillPolling
    | some (.error e) => .failed (parseErrorMessage (.error (errMessage e)))
    | some (.ok []) =>
        .failed (parseErrorMessage (.error "Video generation returned no data."))
    | some (.ok (v0 :: _)) =>
        .created ⟨uuid,
          "Generated: \"" ++ jsTake promptInput 30 ++
            (if promptInput.length > 30 then "..." else "") ++ "\"",
          promptInput,
          "data:video/mp4;base64," ++ v0⟩

/-- Concrete generated-media entries used to exercise the workflow. -/
def gvA : GeneratedVideo := ⟨⟨"u1"⟩⟩

/-- A second concrete generated-media entry. -/
def gvB : GeneratedVideo := ⟨⟨"u2"⟩⟩

/-- A completed operation reporting two generated videos. -/
def opDone : Operation := ⟨true, some ⟨some [gvA, gvB]⟩⟩

/-- A concrete environment whose backend completes immediately with two
videos and whose fetches all succeed. -/
def testEnv : Env :=
  ⟨fun _ _ => opDone,
   fun _ => ⟨true, 200, "OK", "BLOB"⟩,
   fun b => "data:video/mp4;base64," ++ b,
   fun s => s,
   "KEY"⟩

/-- A concrete environment whose backend completes immediately with an
absent response payload. -/
def emptyEnv : Env :=
  ⟨fun _ _ => ⟨true, none⟩,
   fun _ => ⟨true, 200, "OK", "BLOB"⟩,
   fun b => "data:video/mp4;base64," ++ b,
   fun s => s,
   "KEY"⟩

/-- A concrete environment whose backend completes immediately with two
videos but whose fetches all fail with HTTP 403. -/
def badFetchEnv : Env :=
  ⟨fun _ _ => opDone,
   fun _ => ⟨false, 403, "Forbidden", ""⟩,
   fun b => "data:video/mp4;base64," ++ b,
   fun s => s,
   "KEY"⟩


theorem hasPrefixL_length {ps cs : List Char} (h : hasPrefixL ps cs = true) :
    ps.length ≤ cs.length := by
  induction ps generalizing cs with
  | nil => simp
  | cons p ps ih =>
    cases cs with
    | nil => simp [hasPrefixL] at h
    | cons c cs =>
      simp only [hasPrefixL, Bool.and_eq_true, beq_iff_eq] at h
      simpa using ih h.2

theorem containsL_length {pat text : List Char} (h : containsL pat text = true) :
    pat.length ≤ text.length := by
  induction text with
  | nil => exact hasPrefixL_length (by simpa [containsL] using h)
  | cons c cs ih =>
    simp only [containsL, Bool.or_eq_true] at h
    rcases h with h | h
    · exact hasPrefixL_length h
    · exact Nat.le_succ_of_le (by simpa using ih h)

theorem hasPrefixL_eq {ps cs : List Char} (hlen : ps.length = cs.length)
    (h : hasPrefixL ps cs = true) : ps = cs := by
  induction ps generalizing cs with
  | nil =>
    cases cs with
    | nil => rfl
    | cons c cs => simp at hlen
  | cons p ps ih =>
    cases cs with
    | nil => simp at hlen
    | cons c cs =>
      simp only [hasPrefixL, Bool.and_eq_true, beq_iff_eq] at h
      simp only [List.length_cons, Nat.succ.injEq] at hlen
      rw [h.1, ih hlen h.2]

theorem containsL_eq_length {pat text : List Char} (hlen : pat.length = text.length)
    (h : containsL pat text = true) : hasPrefixL pat text = true := by
  cases text with
  | nil => simpa [containsL] using h
  | cons c cs =>
    simp only [containsL, Bool.or_eq_true] at h
    rcases h with h | h
    · exact h
    · exfalso
      have hle := containsL_length h
      simp at hlen
      omega

theorem hasPrefixL_map (f : Char → Char) {ps cs : List Char}
    (h : hasPrefixL ps cs = true) :
    hasPrefixL (ps.map f) (cs.map f) = true := by
  induction ps generalizing cs with
  | nil => simp [hasPrefixL]
  | cons p ps ih =>
    cases cs with
    | nil => simp [hasPrefixL] at h
    | cons c cs =>
      simp only [hasPrefixL, Bool.and_eq_true, beq_iff_eq] at h
      simp only [List.map_cons, hasPrefixL, Bool.and_eq_true, beq_iff_eq]
      exact ⟨by rw [h.1], ih h.2⟩

theorem containsL_map (f : Char → Char) {pat text : List Char}
    (h : containsL pat text = true) :
    containsL (pat.map f) (text.map f) = true := by
  induction text with
  | nil => exact hasPrefixL_map f (by simpa [containsL] using h)
  | cons c cs ih =>
    simp only [containsL, Bool.or_eq_true] at h
    simp only [List.map_cons, containsL, Bool.or_eq_true]
    rcases h with h | h
    · exact Or.inl (by simpa using hasPrefixL_map f h)
    · exact Or.inr (ih h)

theorem strIncludes_lower {m q : String} (h : strIncludes m q = true) :
    containsL (q.data.map Char.toLower) (m.data.map Char.toLower) = true :=
  containsL_map Char.toLower (by simpa [strIncludes] using h)

theorem strIncludes_self_eq {m p : String}
    (hcase : m.data.map Char.toLower = p.data.map Char.toLower)
    (h : strIncludes m p = true) : m = p := by
  have hlen : p.data.length = m.data.length := by
    have h1 := congrArg List.length hcase
    simpa using h1.symm
  have h1 : containsL p.data m.data = true := by simpa [strIncludes] using h
  have h2 := containsL_eq_length hlen h1
  have h3 := hasPrefixL_eq hlen h2
  exact (congrArg String.mk h3).symm

theorem strIncludes_self_false {m p : String}
    (hcase : m.data.map Char.toLower = p.data.map Char.toLower)
    (hne : m ≠ p) : strIncludes m p = false := by
  cases h : strIncludes m p with
  | false => rfl
  | true => exact absurd (strIncludes_self_eq hcase h) hne

theorem strIncludes_cross_false {m p : String} (q : String)
    (hcase : m.data.map Char.toLower = p.data.map Char.toLower)
    (hq : containsL (q.data.map Char.toLower) (p.data.map Char.toLower) = false) :
    strIncludes m q = false := by
  cases h : strIncludes m q with
  | false => rfl
  | true =>
    have h1 := strIncludes_lower h
    rw [hcase, hq] at h1
    exact absurd h1 (by simp)


theorem pollLoop_done (op : Operation) (hd : op.done = true)
    (rest : List Operation) : pollLoop op rest = some (op, 0) := by
  cases rest <;> simp [pollLoop, hd]

theorem fetchAll_ok (env : Env) (l : List GeneratedVideo)
    (h : ∀ gv ∈ l, (env.fetch (requestUrl env gv)).ok = true) :
    fetchAll env l =
      .ok (l.map fun gv => bloblToBase64 env (env.fetch (requestUrl env gv)).blob) := by
  induction l with
  | nil => rfl
  | cons gv rest ih =>
    have hgv : (env.fetch (requestUrl env gv)).ok = true := h gv (by simp)
    have hrest := ih (fun x hx => h x (by simp [hx]))
    simp [fetchAll, fetchOne, hgv, hrest]

theorem fetchAll_err (env : Env) (l : List GeneratedVideo)
    (gv : GeneratedVideo) (hmem : gv ∈ l)
    (hbad : (env.fetch (requestUrl env gv)).ok = false) :
    ∃ g ∈ l, (env.fetch (requestUrl env g)).ok = false ∧
      fetchAll env l = .error (.fetchFailed (env.fetch (requestUrl env g)).status
        (env.fetch (requestUrl env g)).statusText) := by
  induction l with
  | nil => cases hmem
  | cons a rest ih =>
    cases ha : (env.fetch (requestUrl env a)).ok with
    | false =>
      refine ⟨a, by simp, ha, ?_⟩
      simp [fetchAll, fetchOne, ha]
    | true =>
      have hmem2 : gv ∈ rest := by
        rcases List.mem_cons.mp hmem with rfl | h2
        · simp [ha] at hbad
        · exact h2
      obtain ⟨g, hg, hgok, hres⟩ := ih hmem2
      refine ⟨g, List.mem_cons_of_mem a hg, hgok, ?_⟩
      simp [fetchAll, fetchOne, ha, hres]

/-- Claim C3: in every execution of the polling loop, the status re-fetch
(`getVideosOperation`) is invoked exactly once per observation of
`done = false` (hence at least once per incomplete status), the loop exits
immediately upon observing `done = true`, and the re-fetch is never
invoked again after `done = true` has been observed: when the loop ends
after `n` re-fetches, observations `0..n-1` all had `done = false`,
observation `n` is the final one with `done = true`, and restarting the
loop on the final operation makes zero further re-fetches. -/
theorem pollLoop_polls_each_incomplete_and_stops_on_done
    (op : Operation) (trace : List Operation) (opF : Operation) (n : Nat)
    (h : pollLoop op trace = some (opF, n)) :
    opF.done = true ∧
    (op :: trace)[n]? = some opF ∧
    (∀ i, i < n → ∃ o, (op :: trace)[i]? = some o ∧ o.done = false) ∧
    (∀ rest, pollLoop opF rest = some (opF, 0)) := by
  induction trace generalizing op n with
  | nil =>
    cases hd : op.done with
    | false => simp [pollLoop, hd] at h
    | true =>
      simp only [pollLoop, hd, if_true, Option.some.injEq, Prod.mk.injEq] at h
      obtain ⟨rfl, rfl⟩ := h
      refine ⟨hd, rfl, ?_, pollLoop_done op hd⟩
      intro i hi
      omega
  | cons next rest ih =>
    cases hd : op.done with
    | true =>
      simp only [pollLoop, hd, if_true, Option.some.injEq, Prod.mk.injEq] at h
      obtain ⟨rfl, rfl⟩ := h
      refine ⟨hd, rfl, ?_, pollLoop_done op hd⟩
      intro i hi
      omega
    | false =>
      simp only [pollLoop, hd, Bool.false_eq_true, if_false] at h
      cases hpl : pollLoop next rest with
      | none => rw [hpl] at h; cases h
      | some pr =>
        obtain ⟨opG, m⟩ := pr
        rw [hpl] at h
        simp only [Option.some.injEq, Prod.mk.injEq] at h
        obtain ⟨rfl, rfl⟩ := h
        obtain ⟨ihd, ihget, ihlt, ihrest⟩ := ih next m hpl
        refine ⟨ihd, by simpa using ihget, ?_, ihrest⟩
        intro i hi
        cases i with
        | zero => exact ⟨op, rfl, hd⟩
        | succ j =>
          obtain ⟨o, ho, hod⟩ := ihlt j (by omega)
          exact ⟨o, by simpa using ho, hod⟩

/-- Claim C1: for every non-empty prompt and every count at least 1, when
the backend job completes with a list of generated-media references and
every per-reference fetch succeeds, `generateVideoFromText` returns
exactly as many encoded-media entries as there are references, in the
same order as the backend reported them (the result is the reference
list mapped, in place, to its encoded payload). -/
theorem generateVideoFromText_success_length_order
    (env : Env) (prompt : String) (trace : List Operation) (n k : Nat)
    (opF : Operation) (r : OperationResponse) (vids : List GeneratedVideo)
    (hprompt : prompt ≠ "") (hn : 1 ≤ n)
    (hpoll : pollLoop (env.generateVideos prompt n) trace = some (opF, k))
    (hresp : opF.response = some r)
    (hvids : r.generatedVideos = some vids)
    (hne : vids ≠ [])
    (hok : ∀ gv ∈ vids, (env.fetch (requestUrl env gv)).ok = true) :
    generateVideoFromText env prompt trace n =
      some (.ok (vids.map fun gv =>
        bloblToBase64 env (env.fetch (requestUrl env gv)).blob)) ∧
    (vids.map fun gv =>
        bloblToBase64 env (env.fetch (requestUrl env gv)).blob).length
      = vids.length := by
  have hmap := fetchAll_ok env vids hok
  refine ⟨?_, by simp⟩
  simp only [generateVideoFromText, hpoll]
  cases vids with
  | nil => exact absurd rfl hne
  | cons v vs => simp [processResponse, hresp, hvids, hmap]

/-- Witness for claim C1 at a concrete environment reporting two
generated-media references. -/
theorem generateVideoFromText_success_length_order_witness :
    generateVideoFromText testEnv "a cat" [] 1 =
      some (.ok ([gvA, gvB].map fun gv =>
        bloblToBase64 testEnv (testEnv.fetch (requestUrl testEnv gv)).blob)) ∧
    ([gvA, gvB].map fun gv =>
        bloblToBase64 testEnv (testEnv.fetch (requestUrl testEnv gv)).blob).length
      = [gvA, gvB].length :=
  generateVideoFromText_success_length_order testEnv "a cat" [] 1 0 opDone
    ⟨some [gvA, gvB]⟩ [gvA, gvB] (by decide) (by decide) (by decide) (by decide)
    (by decide) (by decide) (by decide)

/-- Claim C2: whenever the job completes with an absent response, an
absent generated-videos list or an empty one, `generateVideoFromText`
throws an error whose message is `No videos generated`, the classifier
maps that error to the two lines
`["Video generation failed:", "No videos generated"]`, and no list is
returned (the outcome is the error, not an `ok`). -/
theorem generateVideoFromText_no_videos
    (env : Env) (prompt : String) (trace : List Operation) (n k : Nat)
    (opF : Operation)
    (hpoll : pollLoop (env.generateVideos prompt n) trace = some (opF, k))
    (hempty : opF.response = none ∨
      ∃ r, opF.response = some r ∧
        (r.generatedVideos = none ∨ r.generatedVideos = some [])) :
    generateVideoFromText env prompt trace n = some (.error .noVideos) ∧
    errMessage .noVideos = "No videos generated" ∧
    parseErrorMessage (.error (errMessage .noVideos)) =
      ["Video generation failed:", "No videos generated"] := by
  refine ⟨?_, rfl, by decide⟩
  simp only [generateVideoFromText, hpoll]
  rcases hempty with h | ⟨r, hr, h | h⟩ <;> simp [processResponse, *]

/-- Witness for claim C2 at a concrete environment whose job completes
with an absent response payload. -/
theorem generateVideoFromText_no_videos_witness :
    generateVideoFromText emptyEnv "a cat" [] 1 = some (.error .noVideos) ∧
    errMessage .noVideos = "No videos generated" ∧
    parseErrorMessage (.error (errMessage .noVideos)) =
      ["Video generation failed:", "No videos generated"] :=
  generateVideoFromText_no_videos emptyEnv "a cat" [] 1 0 ⟨true, none⟩
    (by decide) (Or.inl rfl)

/-- Witness for claim C3 at a concrete two-observation run: one
`done = false` observation followed by a `done = true` one. -/
theorem pollLoop_polls_each_incomplete_and_stops_on_done_witness :
    (⟨true, none⟩ : Operation).done = true ∧
    ((⟨false, none⟩ : Operation) :: [(⟨true, none⟩ : Operation)])[1]? =
      some (⟨true, none⟩ : Operation) ∧
    (∀ i, i < 1 → ∃ o,
      ((⟨false, none⟩ : Operation) :: [(⟨true, none⟩ : Operation)])[i]? = some o ∧
      o.done = false) ∧
    (∀ rest, pollLoop ⟨true, none⟩ rest = some (⟨true, none⟩, 0)) :=
  pollLoop_polls_each_incomplete_and_stops_on_done ⟨false, none⟩
    [⟨true, none⟩] ⟨true, none⟩ 1 (by decide)

/-- Claim C4: if any per-media fetch responds with a non-success HTTP
status, the whole `generateVideoFromText` call fails with an error
carrying the numeric status and status text of a failing fetch, and no
partial list of the other media is returned. -/
theorem generateVideoFromText_fetch_failure
    (env : Env) (prompt : String) (trace : List Operation) (n k : Nat)
    (opF : Operation) (r : OperationResponse) (vids : List GeneratedVideo)
    (gv : GeneratedVideo)
    (hpoll : pollLoop (env.generateVideos prompt n) trace = some (opF, k))
    (hresp : opF.response = some r)
    (hvids : r.generatedVideos = some vids)
    (hmem : gv ∈ vids)
    (hbad : (env.fetch (requestUrl env gv)).ok = false) :
    ∃ g ∈ vids, (env.fetch (requestUrl env g)).ok = false ∧
      generateVideoFromText env prompt trace n =
        some (.error (.fetchFailed (env.fetch (requestUrl env g)).status
          (env.fetch (requestUrl env g)).statusText)) := by
  obtain ⟨g, hg, hgok, hres⟩ := fetchAll_err env vids gv hmem hbad
  refine ⟨g, hg, hgok, ?_⟩
  simp only [generateVideoFromText, hpoll]
  cases vids with
  | nil => cases hg
  | cons v vs => simp [processResponse, hresp, hvids, hres]

/-- Witness for claim C4 at a concrete environment whose fetches fail
with HTTP 403 Forbidden. -/
theorem generateVideoFromText_fetch_failure_witness :
    ∃ g ∈ [gvA, gvB], (badFetchEnv.fetch (requestUrl badFetchEnv g)).ok = false ∧
      generateVideoFromText badFetchEnv "a cat" [] 1 =
        some (.error (.fetchFailed (badFetchEnv.fetch (requestUrl badFetchEnv g)).status
          (badFetchEnv.fetch (requestUrl badFetchEnv g)).statusText)) :=
  generateVideoFromText_fetch_failure badFetchEnv "a cat" [] 1 0 opDone
    ⟨some [gvA, gvB]⟩ [gvA, gvB] gvA (by decide) (by decide) (by decide)
    (by decide) (by decide)

/-- Counterexample to claim C5 as stated: on the message
`Billing account not found` the classifier's detail line says
`Please select a Cloud Project with billing enabled.`, not
`Please select a project with billing enabled.` as the claim asserts. -/
theorem billing_detail_counterexample :
    parseErrorMessage (.error "Billing account not found") ≠
      ["Billing Issue.",
       "A valid billing account is required. Please select a project with billing enabled."] := by
  decide

/-- Claim C5 (amended): for every error whose message contains the
substring `Billing account not found` and none of the earlier patterns in
the table, the classifier returns exactly the two lines
`["Billing Issue.", "A valid billing account is required. Please select a
Cloud Project with billing enabled."]`. -/
theorem parseErrorMessage_billing
    (m : String)
    (hb : strIncludes m "Billing account not found" = true)
    (h1 : strIncludes m "API key not valid" = false)
    (h2 : strIncludes m "permission denied" = false)
    (h3 : strIncludes m "User location is not supported" = false) :
    parseErrorMessage (.error m) =
      ["Billing Issue.",
       "A valid billing account is required. Please select a Cloud Project with billing enabled."] := by
  simp [parseErrorMessage, h1, h2, h3, hb]

/-- Witness for amended claim C5 at the message
`Billing account not found` itself. -/
theorem parseErrorMessage_billing_witness :
    parseErrorMessage (.error "Billing account not found") =
      ["Billing Issue.",
       "A valid billing account is required. Please select a Cloud Project with billing enabled."] :=
  parseErrorMessage_billing "Billing account not found" (by decide) (by decide)
    (by decide) (by decide)

/-- Claim C6: for every error whose message contains the substring
`permission denied` (case-sensitively) and does not contain the earlier
pattern `API key not valid`, the classifier returns exactly the two lines
`["Permission Denied.", "This model may require a specific tier or
project configuration. Please check your project settings."]`. -/
theorem parseErrorMessage_permission_denied
    (m : String)
    (hp : strIncludes m "permission denied" = true)
    (h1 : strIncludes m "API key not valid" = false) :
    parseErrorMessage (.error m) =
      ["Permission Denied.",
       "This model may require a specific tier or project configuration. Please check your project settings."] := by
  simp [parseErrorMessage, h1, hp]

/-- Witness for claim C6 at a message containing `permission denied`. -/
theorem parseErrorMessage_permission_denied_witness :
    parseErrorMessage (.error "x permission denied y") =
      ["Permission Denied.",
       "This model may require a specific tier or project configuration. Please check your project settings."] :=
  parseErrorMessage_permission_denied "x permission denied y" (by decide) (by decide)

/-- Claim C7: for every error whose message matches none of the four
known patterns, the classifier returns exactly the two lines
`["Video generation failed:", message]` with the raw message verbatim. -/
theorem parseErrorMessage_generic
    (m : String)
    (h1 : strIncludes m "API key not valid" = false)
    (h2 : strIncludes m "permission denied" = false)
    (h3 : strIncludes m "User location is not supported" = false)
    (h4 : strIncludes m "Billing account not found" = false) :
    parseErrorMessage (.error m) = ["Video generation failed:", m] := by
  simp [parseErrorMessage, h1, h2, h3, h4]

/-- Witness for claim C7 at the message `boom`, yielding
`["Video generation failed:", "boom"]`. -/
theorem parseErrorMessage_generic_witness :
    parseErrorMessage (.error "boom") = ["Video generation failed:", "boom"] :=
  parseErrorMessage_generic "boom" (by decide) (by decide) (by decide) (by decide)

/-- Claim C8: for every input that is not an `Error` carrying a message,
the classifier is still defined and returns exactly the two lines
`["An unexpected error occurred.", "Please check the console for more
details."]`; being a total Lean function over all modelled inputs, the
classifier is total. -/
theorem parseErrorMessage_unknown_shape (tag : String) :
    parseErrorMessage (.nonError tag) =
      ["An unexpected error occurred.",
       "Please check the console for more details."] := rfl

/-- Claim C9: all four classifier patterns are matched case-sensitively:
for every error whose message differs from one of the four patterns only
in letter case (equal lists of characters after lower-casing, but not
equal strings), the classifier falls through to the generic
`["Video generation failed:", message]` result instead of the pattern's
dedicated two lines. -/
theorem parseErrorMessage_case_sensitive
    (m p : String)
    (hpat : p = "API key not valid" ∨ p = "permission denied" ∨
            p = "User location is not supported" ∨ p = "Billing account not found")
    (hcase : m.data.map Char.toLower = p.data.map Char.toLower)
    (hne : m ≠ p) :
    parseErrorMessage (.error m) = ["Video generation failed:", m] := by
  have hself := strIncludes_self_false hcase hne
  rcases hpat with rfl | rfl | rfl | rfl
  · have h2 := strIncludes_cross_false "permission denied" hcase (by decide)
    have h3 := strIncludes_cross_false "User location is not supported" hcase (by decide)
    have h4 := strIncludes_cross_false "Billing account not found" hcase (by decide)
    simp [parseErrorMessage, hself, h2, h3, h4]
  · have h1 := strIncludes_cross_false "API key not valid" hcase (by decide)
    have h3 := strIncludes_cross_false "User location is not supported" hcase (by decide)
    have h4 := strIncludes_cross_false "Billing account not found" hcase (by decide)
    simp [parseErrorMessage, hself, h1, h3, h4]
  · have h1 := strIncludes_cross_false "API key not valid" hcase (by decide)
    have h2 := strIncludes_cross_false "permission denied" hcase (by decide)
    have h4 := strIncludes_cross_false "Billing account not found" hcase (by decide)
    simp [parseErrorMessage, hself, h1, h2, h4]
  · have h1 := strIncludes_cross_false "API key not valid" hcase (by decide)
    have h2 := strIncludes_cross_false "permission denied" hcase (by decide)
    have h3 := strIncludes_cross_false "User location is not supported" hcase (by decide)
    simp [parseErrorMessage, hself, h1, h2, h3]

/-- Witness for claim C9 at the message `API KEY NOT VALID`, a case
variant of the pattern `API key not valid`. -/
theorem parseErrorMessage_case_sensitive_witness :
    parseErrorMessage (.error "API KEY NOT VALID") =
      ["Video generation failed:", "API KEY NOT VALID"] :=
  parseErrorMessage_case_sensitive "API KEY NOT VALID" "API key not valid"
    (Or.inl rfl) (by decide) (by decide)

/-- Claim C10: both in-repository callers invoke `generateVideoFromText`
without a count argument, so `numberOfVideos` defaults to 1, and on a
successful result list they construct exactly one new `Video` from the
first element (index 0); any further returned entries are discarded (the
constructed records mention only the head of the list). -/
theorem handlers_default_count_first_video
    (env : Env) (uuid : String) (originalVideo : Video) (promptInput : String)
    (trace : List Operation) (v0 : String) (rest : List String)
    (hres : generateVideoFromText env originalVideo.description trace 1 =
      some (.ok (v0 :: rest)))
    (hres2 : generateVideoFromText env promptInput trace 1 =
      some (.ok (v0 :: rest)))
    (hprompt : jsTrim promptInput ≠ "") :
    generateVideoFromTextDefault env originalVideo.description trace =
      generateVideoFromText env originalVideo.description trace 1 ∧
    handleSaveEdit env uuid originalVideo trace =
      .created ⟨uuid, "Remix of \"" ++ originalVideo.title ++ "\"",
        originalVideo.description, "data:video/mp4;base64," ++ v0⟩ ∧
    handleGenerateNewVideo env uuid promptInput trace =
      .created ⟨uuid,
        "Generated: \"" ++ jsTake promptInput 30 ++
          (if promptInput.length > 30 then "..." else "") ++ "\"",
        promptInput, "data:video/mp4;base64," ++ v0⟩ := by
  refine ⟨rfl, ?_, ?_⟩
  · simp [handleSaveEdit, generateVideoFromTextDefault, hres]
  · simp [handleGenerateNewVideo, generateVideoFromTextDefault, hres2, hprompt]

/-- Witness for claim C10 at a concrete environment returning two
encoded-media entries, of which the handlers use only the first. -/
theorem handlers_default_count_first_video_witness :
    generateVideoFromTextDefault testEnv (Video.mk "id0" "Old" "a cat" "url").description [] =
      generateVideoFromText testEnv (Video.mk "id0" "Old" "a cat" "url").description [] 1 ∧
    handleSaveEdit testEnv "uuid1" (Video.mk "id0" "Old" "a cat" "url") [] =
      .created ⟨"uuid1", "Remix of \"" ++ (Video.mk "id0" "Old" "a cat" "url").title ++ "\"",
        (Video.mk "id0" "Old" "a cat" "url").description, "data:video/mp4;base64," ++ "BLOB"⟩ ∧
    handleGenerateNewVideo testEnv "uuid1" "a cat" [] =
      .created ⟨"uuid1",
        "Generated: \"" ++ jsTake "a cat" 30 ++
          (if ("a cat").length > 30 then "..." else "") ++ "\"",
        "a cat", "data:video/mp4;base64," ++ "BLOB"⟩ :=
  handlers_default_count_first_video testEnv "uuid1" (Video.mk "id0" "Old" "a cat" "url")
    "a cat" [] "BLOB" ["BLOB"] (by rfl) (by rfl) (by decide)

end JananVideo
